import Mathlib

/-!
Shallow embedding of the RapidAnswer real-time voice client, translated from
`client/src/App.tsx`, `client/src/hooks/useAudioPlayback.ts` and
`client/src/hooks/useAudioRecording.ts`.

Conventions of the embedding:
* Clock readings (`AudioContext.currentTime`, wall-clock `Date`) and audio
  sample values are rationals, passed to each operation as explicit arguments.
* React `useState` setters and `useRef` cells become record updates on explicit
  state records; each handler is a pure state transformer.
* The Web Audio API operations (`new AudioContext`, `createBuffer`,
  `source.start`) are modelled as total state updates.  The failures that the
  code catches and that are modelled explicitly are the payload-decode
  failures: `atob` on an invalid base64 string, and constructing an
  `Int16Array` view over a byte buffer of odd length (a `RangeError`).
  `source.stop` during a flush may also throw (the source may already have
  finished); that failure is modelled by an explicit oracle.
-/

/-! ## Base64 and PCM16 payload decoding

`playPCMChunkScheduled` decodes its payload with `atob`, copies the resulting
byte string into a `Uint8Array`, and views it as an `Int16Array`
(little-endian 16-bit signed samples). -/

/-- The value of one base64 alphabet character, `none` for a character outside
the alphabet. -/
def base64CharValue (c : Char) : Option Nat :=
  if 'A' ≤ c ∧ c ≤ 'Z' then some (c.toNat - 'A'.toNat)
  else if 'a' ≤ c ∧ c ≤ 'z' then some (c.toNat - 'a'.toNat + 26)
  else if '0' ≤ c ∧ c ≤ '9' then some (c.toNat - '0'.toNat + 52)
  else if c = '+' then some 62
  else if c = '/' then some 63
  else none

/-- Decode a run of base64 digit values (each `< 64`) into bytes, four digits
to three bytes, with a final group of two or three digits contributing one or
two bytes; a final group of one digit is a decode error. -/
def decodeGroups : List Nat → Option (List Nat)
  | [] => some []
  | [_] => none
  | [a, b] => some [a * 4 + b / 16]
  | [a, b, c] => some [a * 4 + b / 16, b % 16 * 16 + c / 4]
  | a :: b :: c :: d :: rest => do
      let tail ← decodeGroups rest
      pure ((a * 4 + b / 16) :: (b % 16 * 16 + c / 4) :: (c % 4 * 64 + d) :: tail)

/-- `window.atob`: forgiving base64 decode.  ASCII whitespace is removed, up to
two trailing `=` padding characters are stripped when the length is a multiple
of four, and the remaining characters must all be alphabet characters, with a
remainder of one character (mod four) rejected. -/
def atob (input : String) : Option (List Nat) := do
  let chars := input.toList.filter fun c =>
    ¬ (c = ' ' ∨ c = '\t' ∨ c = '\n' ∨ c = '\x0c' ∨ c = '\r')
  let chars :=
    if chars.length % 4 = 0 then
      if chars.reverse.take 2 = ['=', '='] then chars.dropLast.dropLast
      else if chars.reverse.take 1 = ['='] then chars.dropLast
      else chars
    else chars
  let digits ← chars.mapM base64CharValue
  decodeGroups digits

/-- View a byte string as little-endian signed 16-bit samples.  An odd number
of bytes is a decode error: `new Int16Array(buffer)` throws a `RangeError` when
the buffer's byte length is not a multiple of two. -/
def bytesToInt16 : List Nat → Option (List Int)
  | [] => some []
  | [_] => none
  | lo :: hi :: rest => do
      let tail ← bytesToInt16 rest
      let v := lo + 256 * hi
      pure ((if v < 32768 then (v : Int) else (v : Int) - 65536) :: tail)

/-- The complete payload decode performed by `playPCMChunkScheduled`:
base64 text to bytes (`atob`), bytes to 16-bit samples (`Int16Array`). -/
def decodePCM16 (pcmBase64 : String) : Option (List Int) := do
  let bytes ← atob pcmBase64
  bytesToInt16 bytes

/-! ## The scheduled playback engine (`useAudioPlayback.ts`) -/

/-- The mutable state held by `useAudioPlayback`:
`playbackContextRef` (modelled by whether a context is open),
`nextPlayTimeRef`, and `activeSourcesRef` (the tracked
scheduled-but-unfinished buffer sources, by identity).  `nextId` supplies
fresh identities for created sources. -/
structure PlaybackState where
  contextOpen : Bool
  nextPlayTime : ℚ
  activeSources : List Nat
  nextId : Nat
deriving DecidableEq, Repr

/-- The state before any playback: no context, refs at their initial values. -/
def initialPlaybackState : PlaybackState :=
  { contextOpen := false, nextPlayTime := 0, activeSources := [], nextId := 0 }

/-- One scheduled playback unit: the buffer source created for a chunk, its
scheduled start time on the output clock, its duration in seconds
(`samples.length / sampleRate`), and its normalized sample data
(`samples[i] / 32768.0`). -/
structure ScheduledUnit where
  sourceId : Nat
  startTime : ℚ
  duration : ℚ
  samples : List ℚ
deriving DecidableEq, Repr

/-- `playPCMChunkScheduled(pcmBase64, sampleRate, channels)` with the output
clock reading `now` (`context.currentTime`).  The whole body runs in a
`try`/`catch` that logs and drops the chunk on any error; the modelled failure
is the payload decode.  On success it returns the scheduled unit; on failure it
returns `none` and only the context-initialization effect (which precedes the
decode) has happened. -/
def playPCMChunkScheduled (s : PlaybackState) (now : ℚ) (pcmBase64 : String)
    (sampleRate : ℚ) (channels : Nat) : PlaybackState × Option ScheduledUnit :=
  -- initialize the playback AudioContext if needed, and on creation set
  -- nextPlayTimeRef to the context's current time
  let s1 :=
    if s.contextOpen then s
    else { s with contextOpen := true, nextPlayTime := now }
  -- (a suspended context is resumed here; no effect on the modelled state)
  match decodePCM16 pcmBase64 with
  | none => (s1, none)
  | some samples =>
      -- createBuffer(channels, samples.length, sampleRate); only channel 0 is
      -- filled, with int16 converted to float32 by dividing by 32768.0
      let _ := channels
      let channelData := samples.map fun v => (v : ℚ) / 32768
      let chunkDurationSeconds : ℚ := samples.length / sampleRate
      -- schedule playback at the precise next time
      let startTime := max now s1.nextPlayTime
      let src := s1.nextId
      ({ s1 with
          activeSources := s1.activeSources ++ [src],
          nextId := s1.nextId + 1,
          nextPlayTime := startTime + chunkDurationSeconds },
       some { sourceId := src, startTime := startTime,
              duration := chunkDurationSeconds, samples := channelData })

/-- `source.stop()` on a tracked source: it may throw (for example the source
already finished); which sources throw is decided by the oracle. -/
def tryStop (stopThrows : Nat → Bool) (id : Nat) : Except String Unit :=
  if stopThrows id then Except.error "InvalidStateError" else Except.ok ()

/-- `stopPlayback`: every tracked source is stopped inside its own
`try`/`catch` (a throwing stop is swallowed and the iteration continues), the
tracking array is reset to `[]`, `nextPlayTimeRef` is reset to `0`, and the
audio context, if open, is closed.  The second component records, for each
previously tracked source in order, whether its `stop()` call succeeded. -/
def stopPlayback (stopThrows : Nat → Bool) (s : PlaybackState) :
    PlaybackState × List (Nat × Bool) :=
  let stopped := s.activeSources.map fun id =>
    (id, (tryStop stopThrows id).toOption.isSome)
  ({ s with activeSources := [], nextPlayTime := 0, contextOpen := false },
   stopped)

/-- The `onended` handler of a source: `indexOf` followed by `splice` removes
the first occurrence of the source from the tracking array when present. -/
def sourceEnded (s : PlaybackState) (id : Nat) : PlaybackState :=
  { s with activeSources := s.activeSources.erase id }

/-! ## Server events and the client message handler (`App.tsx`) -/

/-- The inbound server event shapes, discriminated by `type`
(see `WEBSOCKET_API.md`). -/
inductive ServerEvent where
  | interim_transcription (text : String)
  | ai_response_stream (content : String) (is_complete : Bool)
  | audio_stream_pcm (pcm_chunk : String) (sample_rate : ℚ) (channels : Nat)
      (is_final : Bool)
  | voice_response (transcription : String) (ai_response : String)
  | stop_audio_playback
  | error (message : String)
deriving DecidableEq, Repr

/-- The role of one chat record. -/
inductive MsgRole where
  | user
  | assistant
deriving DecidableEq, Repr

/-- One record of the message history (`ChatMessage`). -/
structure ChatMessage where
  type : MsgRole
  content : String
  timestamp : ℚ
deriving DecidableEq, Repr

/-- The recording phase of the session (`RecordingState`). -/
inductive RecordingState where
  | idle
  | recording
  | processing
deriving DecidableEq, Repr

/-- The client's observable state: the `useState` cells of `App`, whether the
capture pipeline (processor, source and microphone stream refs) is live, and
the playback engine state. -/
structure AppState where
  recordingState : RecordingState
  messages : List ChatMessage
  interimMessage : Option String
  streamingResponse : String
  errorMsg : Option String
  micActive : Bool
  playback : PlaybackState
deriving DecidableEq, Repr

/-- `handleMessage`: the dispatch over `data.type` run for each inbound
WebSocket message.  `audioNow` is the playback clock reading at the moment an
`audio_stream_pcm` chunk is scheduled; `wallNow` is the wall-clock used for
`new Date()` timestamps.  The second component is the playback unit scheduled
while handling the event, if any.

The source's switch has cases for exactly `interim_transcription`,
`ai_response_stream`, `audio_stream_pcm`, `voice_response` and `error`; every
other `type` — `stop_audio_playback` included — falls through to the default
branch, which only logs a warning and changes nothing. -/
def handleMessage (s : AppState) (audioNow wallNow : ℚ) (ev : ServerEvent) :
    AppState × Option ScheduledUnit :=
  match ev with
  | ServerEvent.interim_transcription text =>
      ({ s with interimMessage := some text }, none)
  | ServerEvent.ai_response_stream content is_complete =>
      if is_complete then ({ s with streamingResponse := "" }, none)
      else ({ s with streamingResponse := s.streamingResponse ++ content }, none)
  | ServerEvent.audio_stream_pcm pcm_chunk sample_rate channels _ =>
      -- `if (data.pcm_chunk)`: an empty chunk string is falsy and is skipped
      if pcm_chunk = "" then (s, none)
      else
        let r := playPCMChunkScheduled s.playback audioNow pcm_chunk
          sample_rate channels
        ({ s with playback := r.1 }, r.2)
  | ServerEvent.voice_response transcription ai_response =>
      -- forceCleanupAudio(): disconnect processor and source, stop the
      -- microphone stream
      ({ s with
          micActive := false,
          interimMessage := none,
          streamingResponse := "",
          messages := s.messages ++
            [{ type := MsgRole.user, content := transcription,
               timestamp := wallNow },
             { type := MsgRole.assistant, content := ai_response,
               timestamp := wallNow }],
          recordingState := RecordingState.idle }, none)
  | ServerEvent.error message =>
      ({ s with
          errorMsg := some message,
          recordingState := RecordingState.idle,
          interimMessage := none,
          streamingResponse := "" }, none)
  | ServerEvent.stop_audio_playback =>
      -- no case in the source switch: default branch, state untouched
      (s, none)

/-! ## The transport channel (`useWebSocket` configuration in `App.tsx`) -/

/-- The WebSocket ready states exposed by `react-use-websocket`. -/
inductive ReadyState where
  | UNINSTANTIATED
  | CONNECTING
  | OPEN
  | CLOSING
  | CLOSED
deriving DecidableEq, Repr

/-- `shouldReconnect` from the `useWebSocket` options: reconnect unless the
closure was a normal closure (code 1000). -/
def shouldReconnect (closeCode : Nat) : Bool :=
  closeCode ≠ 1000

/-- `reconnectAttempts` from the `useWebSocket` options. -/
def reconnectAttempts : Nat := 10

/-- `reconnectInterval` from the `useWebSocket` options, in milliseconds. -/
def reconnectInterval : Nat := 2000

/-- Modelled from the spec: the reconnect bookkeeping of the transport
channel.  The retry loop itself lives inside the `react-use-websocket`
library, which is not part of this repository's sources; per the spec the
channel tracks a reconnect attempt count and a terminal disconnected flag. -/
structure ChannelState where
  attemptCount : Nat
  terminalDisconnected : Bool
deriving DecidableEq, Repr

/-- The channel state on first connect: zero attempts, not disconnected. -/
def initialChannelState : ChannelState :=
  { attemptCount := 0, terminalDisconnected := false }

/-- Modelled from the spec: what the transport does on one connection
closure.  If `shouldReconnect` accepts the close code and the attempt budget
(`reconnectAttempts`) is not exhausted, one reconnect attempt is scheduled
after `reconnectInterval` milliseconds (returned as `some delay`); if the
code warrants a reconnect but the budget is exhausted, the terminal
disconnected state is surfaced; a normal closure schedules nothing. -/
def onClose (closeCode : Nat) (st : ChannelState) : ChannelState × Option Nat :=
  if shouldReconnect closeCode then
    if st.attemptCount < reconnectAttempts then
      ({ st with attemptCount := st.attemptCount + 1 }, some reconnectInterval)
    else
      ({ st with terminalDisconnected := true }, none)
  else (st, none)

/-- Run a sequence of connection closures (with no successful open in
between, so the attempt count is never reset), collecting the scheduled
reconnect delays. -/
def runClosures (st : ChannelState) : List Nat → ChannelState × List Nat
  | [] => (st, [])
  | code :: rest =>
      let r := onClose code st
      let rec' := runClosures r.1 rest
      (rec'.1, r.2.toList ++ rec'.2)

/-! ## The capture pipeline (`useAudioRecording.ts`) -/

/-- The slice of client state that `sendPCMData` and `startRecording` read and
write: the recording phase, the user-visible error message, and whether the
capture pipeline (microphone stream, processor, source) is live. -/
structure AppCtx where
  recordingState : RecordingState
  errorMsg : Option String
  micActive : Bool
deriving DecidableEq, Repr

/-- `sendPCMData(pcmData)`: if the socket is not open the frame is dropped
(there is no queue to put it in), and if this happens while recording, an
error is surfaced and recording stops; otherwise the frame is handed to
`sendMessage`.  The second component is the frame transmitted, if any. -/
def sendPCMData (readyState : ReadyState) (ctx : AppCtx) (pcmData : List Int) :
    AppCtx × Option (List Int) :=
  if readyState ≠ ReadyState.OPEN then
    if ctx.recordingState = RecordingState.recording then
      ({ ctx with
          errorMsg := some "Connection lost during recording",
          recordingState := RecordingState.idle }, none)
    else (ctx, none)
  else (ctx, some pcmData)

/-- `startRecording()`: blocked (pure return) unless `recordingState` is
`idle`; blocked with an error message when the socket is not open; otherwise
it clears the error, enters `recording` and acquires the microphone.
`micResult` models `navigator.mediaDevices.getUserMedia`: `Except.ok` when
the device is granted, `Except.error msg` when acquisition throws, in which
case the `catch` block surfaces the error and returns to `idle` with no
capture pipeline acquired. -/
def startRecording (readyState : ReadyState) (micResult : Except String Unit)
    (s : AppCtx) : AppCtx :=
  if s.recordingState ≠ RecordingState.idle then s
  else if readyState ≠ ReadyState.OPEN then
    { s with errorMsg := some "WebSocket not connected. Please wait and try again." }
  else
    match micResult with
    | Except.ok _ =>
        { s with
            errorMsg := none,
            recordingState := RecordingState.recording,
            micActive := true }
    | Except.error msg =>
        { s with
            errorMsg := some ("Failed to start recording: " ++ msg),
            recordingState := RecordingState.idle }

/-! ## The frame encoder (`processor.onaudioprocess`) -/

/-- The int16 quantization applied per sample:
`Math.max(-32768, Math.min(32767, x * 32767))`, then the `Int16Array` store
truncates toward zero. -/
def quantizeSample (x : ℚ) : Int :=
  let y := max (-32768) (min 32767 (x * 32767))
  if 0 ≤ y then ⌊y⌋ else ⌈y⌉

/-- One `onaudioprocess` callback: the input samples are appended to
`pcmBuffer`; once the buffer holds at least 1600 samples the whole buffer is
quantized into one frame, handed to `sendPCMData`, and the buffer is reset.
Returns the new buffer and the emitted frame, if any. -/
def processAudioBatch (pcmBuffer : List ℚ) (inputData : List ℚ) :
    List ℚ × Option (List Int) :=
  let buf := pcmBuffer ++ inputData
  if 1600 ≤ buf.length then
    ([], some (buf.map quantizeSample))
  else (buf, none)

/-- Run the encoder over a sequence of capture callbacks starting from the
buffer `buf`, collecting the emitted frames in order and the final leftover
buffer. -/
def runEncoderAux (buf : List ℚ) : List (List ℚ) → List (List Int) × List ℚ
  | [] => ([], buf)
  | batch :: rest =>
      let step := processAudioBatch buf batch
      let r := runEncoderAux step.1 rest
      (step.2.toList ++ r.1, r.2)

/-- Run the encoder over a sequence of capture callbacks from the initial
empty buffer. -/
def runEncoder (batches : List (List ℚ)) : List (List Int) × List ℚ :=
  runEncoderAux [] batches

/-! ## Claims -/

/-- Claim C1: a `stop_audio_playback` event is claimed to flush the playback
engine immediately (stop every tracked source, clear the tracking set) before
any further chunk is scheduled.  The client's message handler has no case for
this event type: it falls through to the default branch and the whole state —
the tracking set and every scheduled source included — is left untouched. -/
theorem C1_stop_audio_playback_event_ignored (s : AppState)
    (audioNow wallNow : ℚ) :
    handleMessage s audioNow wallNow ServerEvent.stop_audio_playback
      = (s, none) := rfl

/-- Claim C9: an inbound `audio_stream_pcm` event whose `pcm_chunk` payload is
the empty string (whatever its final marker) is accepted and is a no-op on
playback state: the handler returns the state unchanged and schedules no
audio unit. -/
theorem C9_empty_chunk_noop (s : AppState) (audioNow wallNow : ℚ)
    (sample_rate : ℚ) (channels : Nat) (is_final : Bool) :
    handleMessage s audioNow wallNow
        (ServerEvent.audio_stream_pcm "" sample_rate channels is_final)
      = (s, none) := by
  simp [handleMessage]

/-- Claim C7: on a terminal `voice_response` event the transient display state
is cleared (interim transcript none, partial streaming response empty) and
exactly two records are appended to the history in order — the user utterance
with the event's transcription, then the assistant record with the event's
`ai_response`; the playback engine state and the error message are untouched
by this event. -/
theorem C7_voice_response_commits_turn (s : AppState) (audioNow wallNow : ℚ)
    (transcription ai_response : String) :
    (handleMessage s audioNow wallNow
        (ServerEvent.voice_response transcription ai_response)).1.interimMessage
        = none ∧
    (handleMessage s audioNow wallNow
        (ServerEvent.voice_response transcription ai_response)).1.streamingResponse
        = "" ∧
    (handleMessage s audioNow wallNow
        (ServerEvent.voice_response transcription ai_response)).1.messages
        = s.messages ++
          [{ type := MsgRole.user, content := transcription,
             timestamp := wallNow },
           { type := MsgRole.assistant, content := ai_response,
             timestamp := wallNow }] ∧
    (handleMessage s audioNow wallNow
        (ServerEvent.voice_response transcription ai_response)).1.recordingState
        = RecordingState.idle ∧
    (handleMessage s audioNow wallNow
        (ServerEvent.voice_response transcription ai_response)).1.playback
        = s.playback ∧
    (handleMessage s audioNow wallNow
        (ServerEvent.voice_response transcription ai_response)).1.errorMsg
        = s.errorMsg ∧
    (handleMessage s audioNow wallNow
        (ServerEvent.voice_response transcription ai_response)).2 = none :=
  ⟨rfl, rfl, rfl, rfl, rfl, rfl, rfl⟩

/-- Claim C6: a frame send attempted while the channel is not open fails fast:
no frame is transmitted (and the code has no queue to defer it into), and if
this happens while recording, an error is surfaced and recording stops;
outside recording the state is untouched. -/
theorem C6_send_while_not_open_fails_fast (readyState : ReadyState)
    (ctx : AppCtx) (pcmData : List Int) (h : readyState ≠ ReadyState.OPEN) :
    (sendPCMData readyState ctx pcmData).2 = none ∧
    (ctx.recordingState = RecordingState.recording →
      sendPCMData readyState ctx pcmData =
        ({ ctx with
            errorMsg := some "Connection lost during recording",
            recordingState := RecordingState.idle }, none)) ∧
    (ctx.recordingState ≠ RecordingState.recording →
      sendPCMData readyState ctx pcmData = (ctx, none)) := by
  by_cases hrec : ctx.recordingState = RecordingState.recording <;>
    simp [sendPCMData, h, hrec]

/-- Witness for C6 at a concrete closed socket during recording. -/
theorem C6_send_while_not_open_fails_fast_witness :
    ReadyState.CLOSED ≠ ReadyState.OPEN ∧
    sendPCMData ReadyState.CLOSED
        { recordingState := RecordingState.recording, errorMsg := none,
          micActive := true } [0] =
      ({ recordingState := RecordingState.idle,
         errorMsg := some "Connection lost during recording",
         micActive := true }, none) := by
  refine ⟨by decide, ?_⟩
  exact (C6_send_while_not_open_fails_fast ReadyState.CLOSED
    { recordingState := RecordingState.recording, errorMsg := none,
      micActive := true } [0] (by decide)).2.1 rfl

/-- Claim C10: `startRecording` is guarded at its public interface.  Called
while the recording state is not `idle` it returns with no state change (and
no microphone acquisition); called while idle but with the channel not open it
only sets the error message, leaving the recording state `idle` and the
capture pipeline unacquired. -/
theorem C10_startRecording_guarded (readyState : ReadyState)
    (micResult : Except String Unit) (s : AppCtx) :
    (s.recordingState ≠ RecordingState.idle →
      startRecording readyState micResult s = s) ∧
    (s.recordingState = RecordingState.idle →
      readyState ≠ ReadyState.OPEN →
      startRecording readyState micResult s =
          { s with
              errorMsg := some "WebSocket not connected. Please wait and try again." } ∧
        (startRecording readyState micResult s).recordingState
          = RecordingState.idle ∧
        (startRecording readyState micResult s).micActive = s.micActive) := by
  constructor
  · intro h
    simp [startRecording, h]
  · intro hidle hopen
    refine ⟨by simp [startRecording, hidle, hopen], ?_, ?_⟩ <;>
      simp [startRecording, hidle, hopen]

/-- Witness for C10: a call during recording is a pure no-op, and a call while
idle with the socket still connecting only sets the error message. -/
theorem C10_startRecording_guarded_witness :
    (RecordingState.recording ≠ RecordingState.idle ∧
      startRecording ReadyState.OPEN (Except.ok ())
          { recordingState := RecordingState.recording, errorMsg := none,
            micActive := true } =
        { recordingState := RecordingState.recording, errorMsg := none,
          micActive := true }) ∧
    (ReadyState.CONNECTING ≠ ReadyState.OPEN ∧
      startRecording ReadyState.CONNECTING (Except.ok ())
          { recordingState := RecordingState.idle, errorMsg := none,
            micActive := false } =
        { recordingState := RecordingState.idle,
          errorMsg := some "WebSocket not connected. Please wait and try again.",
          micActive := false }) := by
  refine ⟨⟨by decide, ?_⟩, ⟨by decide, ?_⟩⟩
  · exact (C10_startRecording_guarded ReadyState.OPEN (Except.ok ())
      { recordingState := RecordingState.recording, errorMsg := none,
        micActive := true }).1 (by decide)
  · exact ((C10_startRecording_guarded ReadyState.CONNECTING (Except.ok ())
      { recordingState := RecordingState.idle, errorMsg := none,
        micActive := false }).2 rfl (by decide)).1


/-- Conservation for the encoder: the emitted frames followed by the quantized
leftover buffer are exactly the quantized input stream (initial buffer
included), in order, with nothing duplicated or dropped. -/
theorem runEncoderAux_conservation (batches : List (List ℚ)) :
    ∀ buf : List ℚ,
      (runEncoderAux buf batches).1.flatten
          ++ (runEncoderAux buf batches).2.map quantizeSample
        = (buf ++ batches.flatten).map quantizeSample := by
  induction batches with
  | nil =>
      intro buf
      simp [runEncoderAux]
  | cons batch rest ih =>
      intro buf
      by_cases h : 1600 ≤ buf.length + batch.length
      · simp [runEncoderAux, processAudioBatch, h, ih, List.map_append,
          List.append_assoc]
      · simp [runEncoderAux, processAudioBatch, h, ih, List.map_append,
          List.append_assoc]

/-- Every frame the encoder emits holds at least 1600 samples. -/
theorem runEncoderAux_frame_sizes (batches : List (List ℚ)) :
    ∀ buf : List ℚ, ∀ f ∈ (runEncoderAux buf batches).1, 1600 ≤ f.length := by
  induction batches with
  | nil =>
      intro buf f hf
      simp [runEncoderAux] at hf
  | cons batch rest ih =>
      intro buf f hf
      by_cases h : 1600 ≤ buf.length + batch.length
      · simp [runEncoderAux, processAudioBatch, h] at hf
        rcases hf with hf | hf
        · subst hf
          simp [List.length_append, List.length_map]
          omega
        · exact ih [] f hf
      · simp [runEncoderAux, processAudioBatch, h] at hf
        exact ih (buf ++ batch) f hf

/-- The encoder's buffer holds fewer than 1600 samples after every callback:
whatever is left at stream end is a partial frame. -/
theorem runEncoderAux_leftover_lt (batches : List (List ℚ)) :
    ∀ buf : List ℚ, buf.length < 1600 →
      (runEncoderAux buf batches).2.length < 1600 := by
  induction batches with
  | nil =>
      intro buf hbuf
      simpa [runEncoderAux] using hbuf
  | cons batch rest ih =>
      intro buf hbuf
      by_cases h : 1600 ≤ buf.length + batch.length
      · simp only [runEncoderAux, processAudioBatch]
        rw [List.length_append, if_pos h]
        exact ih [] (by simp)
      · simp only [runEncoderAux, processAudioBatch]
        rw [List.length_append, if_neg h]
        exact ih (buf ++ batch) (by simp; omega)

/-- Claim C2 counterexample: the encoder's frames are not each of exactly
1600 samples.  A single capture callback delivering 1601 samples (the real
capture batches hold 4096) pushes the buffer past the 1600-sample threshold,
and the encoder emits the whole 1601-sample buffer as one frame. -/
theorem C2_counterexample_frame_size :
    (runEncoder [List.replicate 1601 (0 : ℚ)]).1.map List.length = [1601] ∧
    (1601 : Nat) ≠ 1600 := by
  constructor
  · simp only [runEncoder, runEncoderAux, processAudioBatch, List.nil_append,
      List.length_replicate]
    norm_num
  · decide

/-- Claim C2, amended: for every input sample stream delivered to the capture
callback, the encoder emits frames in arrival order with no sample duplicated
or dropped — the concatenation of the emitted frames followed by the
(quantized) leftover buffer is exactly the quantized input stream — and
discards only a final partial remainder of fewer than 1600 samples; each
frame's size is the accumulated buffer length at the moment it first reaches
1600 samples, hence at least 1600 but not exactly 1600 in general. -/
theorem C2_encoder_framing_amended (batches : List (List ℚ)) :
    (runEncoder batches).1.flatten
        ++ (runEncoder batches).2.map quantizeSample
      = batches.flatten.map quantizeSample ∧
    ((runEncoder batches).1.all fun f => 1600 ≤ f.length) = true ∧
    (runEncoder batches).2.length < 1600 := by
  refine ⟨?_, ?_, ?_⟩
  · simpa [runEncoder] using runEncoderAux_conservation batches []
  · rw [List.all_eq_true]
    intro f hf
    simpa using runEncoderAux_frame_sizes batches [] f hf
  · exact runEncoderAux_leftover_lt batches [] (by simp)

/-- Claim C3: successfully decoded chunks scheduled without an intervening
flush are gap-free.  The first chunk starts at `max(currentClockTime,
nextFreeTime)` where `nextFreeTime` is the clock's current time on first use
(`contextOpen = false`) and the stored `nextPlayTime` otherwise; its duration
is `sampleCount / sampleRate`; after scheduling, `nextFreeTime` has advanced
by exactly that duration; and a second chunk scheduled before `nextFreeTime`
has passed starts exactly at the first chunk's start time plus its
duration. -/
theorem C3_gap_free_scheduling (s : PlaybackState) (t1 t2 : ℚ)
    (p1 p2 : String) (r1 r2 : ℚ) (c1 c2 : Nat) (samples1 samples2 : List Int)
    (hd1 : decodePCM16 p1 = some samples1)
    (hd2 : decodePCM16 p2 = some samples2)
    (harrival : t2 ≤ (playPCMChunkScheduled s t1 p1 r1 c1).1.nextPlayTime) :
    ((playPCMChunkScheduled s t1 p1 r1 c1).2.map ScheduledUnit.startTime)
      = some (max t1 (if s.contextOpen then s.nextPlayTime else t1)) ∧
    ((playPCMChunkScheduled s t1 p1 r1 c1).2.map ScheduledUnit.duration)
      = some ((samples1.length : ℚ) / r1) ∧
    (playPCMChunkScheduled s t1 p1 r1 c1).1.nextPlayTime
      = max t1 (if s.contextOpen then s.nextPlayTime else t1)
          + (samples1.length : ℚ) / r1 ∧
    ((playPCMChunkScheduled (playPCMChunkScheduled s t1 p1 r1 c1).1
          t2 p2 r2 c2).2.map ScheduledUnit.startTime)
      = some (max t1 (if s.contextOpen then s.nextPlayTime else t1)
          + (samples1.length : ℚ) / r1) := by
  by_cases hco : s.contextOpen
  · simp only [playPCMChunkScheduled, hd1, hd2, hco, if_true] at harrival ⊢
    simp at harrival ⊢
    exact harrival
  · simp only [playPCMChunkScheduled, hd1, hd2, hco, if_false] at harrival ⊢
    simp at harrival ⊢
    exact harrival

/-- Witness for C3: two one-sample chunks at 24 kHz from the initial state;
the second, arriving at clock time 0 before the first finishes, starts exactly
one sample-duration after the first. -/
theorem C3_gap_free_scheduling_witness :
    decodePCM16 "AAA=" = some [0] ∧
    (0 : ℚ) ≤ (playPCMChunkScheduled initialPlaybackState 0 "AAA="
        24000 1).1.nextPlayTime ∧
    ((playPCMChunkScheduled (playPCMChunkScheduled initialPlaybackState 0
          "AAA=" 24000 1).1 0 "AAA=" 24000 1).2.map ScheduledUnit.startTime)
      = some (max 0 (if initialPlaybackState.contextOpen then
            initialPlaybackState.nextPlayTime else 0)
          + (([0] : List Int).length : ℚ) / 24000) := by
  have hdec : decodePCM16 "AAA=" = some [0] := by decide
  have harr : (0 : ℚ) ≤ (playPCMChunkScheduled initialPlaybackState 0 "AAA="
      24000 1).1.nextPlayTime := by
    simp [playPCMChunkScheduled, hdec, initialPlaybackState]
  exact ⟨hdec, harr,
    (C3_gap_free_scheduling initialPlaybackState 0 0 "AAA=" "AAA=" 24000 24000
      1 1 [0] [0] hdec hdec harr).2.2.2⟩

/-- Claim C4, amended: flush is idempotent — flushing twice leaves the same
state as flushing once — and after any flush, whatever `stop()` calls threw,
the tracking set is empty, `nextPlayTime` is 0 and the context is closed;
`stop()` is invoked on every previously tracked source; and a flush of an
already-flushed state (tracking empty, `nextPlayTime` 0, context closed) is a
genuine no-op.  (Flushing when merely no chunk is tracked is, however, not a
no-op on the clock: see the counterexample.) -/
theorem C4_flush_idempotent_amended (stopThrows1 stopThrows2 : Nat → Bool)
    (s : PlaybackState) :
    (stopPlayback stopThrows2 (stopPlayback stopThrows1 s).1).1
      = (stopPlayback stopThrows1 s).1 ∧
    (stopPlayback stopThrows1 s).1.activeSources = [] ∧
    (stopPlayback stopThrows1 s).1.nextPlayTime = 0 ∧
    (stopPlayback stopThrows1 s).1.contextOpen = false ∧
    ((stopPlayback stopThrows1 s).2.map Prod.fst) = s.activeSources ∧
    (s.activeSources = [] ∧ s.nextPlayTime = 0 ∧ s.contextOpen = false →
      (stopPlayback stopThrows1 s).1 = s) := by
  refine ⟨rfl, rfl, rfl, rfl, by simp [stopPlayback, Function.comp_def], ?_⟩
  rintro ⟨h1, h2, h3⟩
  cases s
  simp_all [stopPlayback]

/-- Witness for C4's amended already-flushed clause, at the initial state. -/
theorem C4_flush_idempotent_amended_witness :
    (initialPlaybackState.activeSources = [] ∧
      initialPlaybackState.nextPlayTime = 0 ∧
      initialPlaybackState.contextOpen = false) ∧
    (stopPlayback (fun _ => false) initialPlaybackState).1
      = initialPlaybackState :=
  ⟨⟨rfl, rfl, rfl⟩,
   (C4_flush_idempotent_amended (fun _ => false) (fun _ => false)
       initialPlaybackState).2.2.2.2.2 ⟨rfl, rfl, rfl⟩⟩

/-- Claim C4 counterexample: calling flush when no chunks are scheduled is
not a no-op on the clock.  Schedule one chunk from the initial state and let
it end naturally (its `onended` handler empties the tracking set while
`nextPlayTime` stays at the chunk's end time); flushing this chunk-free state
still changes `nextPlayTime` (to 0). -/
theorem C4_counterexample_flush_not_noop :
    (sourceEnded (playPCMChunkScheduled initialPlaybackState 0 "AAA="
        24000 1).1 0).activeSources = [] ∧
    (stopPlayback (fun _ => false)
        (sourceEnded (playPCMChunkScheduled initialPlaybackState 0 "AAA="
          24000 1).1 0)).1.nextPlayTime
      ≠ (sourceEnded (playPCMChunkScheduled initialPlaybackState 0 "AAA="
          24000 1).1 0).nextPlayTime := by
  have hdec : decodePCM16 "AAA=" = some [0] := by decide
  constructor
  · simp [sourceEnded, playPCMChunkScheduled, hdec, initialPlaybackState]
  · simp [stopPlayback, sourceEnded, playPCMChunkScheduled, hdec,
      initialPlaybackState, max_self]

/-- Claim C8: a chunk whose payload fails to decode (invalid base64, or a
byte sequence that is not valid 16-bit PCM) is dropped — nothing is scheduled,
the tracking set is untouched — and the engine still schedules any subsequent
well-formed chunk normally: the good chunk is scheduled at
`max(currentClockTime, nextFreeTime)` and appended to the tracking set. -/
theorem C8_malformed_chunk_dropped (s : PlaybackState) (now now2 : ℚ)
    (pbad pgood : String) (r1 r2 : ℚ) (c1 c2 : Nat) (samples : List Int)
    (hbad : decodePCM16 pbad = none)
    (hgood : decodePCM16 pgood = some samples) :
    (playPCMChunkScheduled s now pbad r1 c1).2 = none ∧
    (playPCMChunkScheduled s now pbad r1 c1).1.activeSources
      = s.activeSources ∧
    (playPCMChunkScheduled s now pbad r1 c1).1.nextId = s.nextId ∧
    (playPCMChunkScheduled (playPCMChunkScheduled s now pbad r1 c1).1
        now2 pgood r2 c2).2
      = some { sourceId := s.nextId,
               startTime := max now2
                 (playPCMChunkScheduled s now pbad r1 c1).1.nextPlayTime,
               duration := (samples.length : ℚ) / r2,
               samples := samples.map fun v => (v : ℚ) / 32768 } ∧
    (playPCMChunkScheduled (playPCMChunkScheduled s now pbad r1 c1).1
        now2 pgood r2 c2).1.activeSources
      = s.activeSources ++ [s.nextId] := by
  by_cases hco : s.contextOpen <;>
    simp [playPCMChunkScheduled, hbad, hgood, hco]

/-- Witness for C8: an invalid base64 chunk followed by a well-formed
one-sample chunk; the bad chunk schedules nothing and the good one is
scheduled normally. -/
theorem C8_malformed_chunk_dropped_witness :
    decodePCM16 "!" = none ∧
    decodePCM16 "AAA=" = some [0] ∧
    (playPCMChunkScheduled initialPlaybackState 0 "!" 24000 1).2 = none ∧
    (playPCMChunkScheduled (playPCMChunkScheduled initialPlaybackState 0 "!"
        24000 1).1 1 "AAA=" 24000 1).2
      = some { sourceId := initialPlaybackState.nextId,
               startTime := max 1 (playPCMChunkScheduled initialPlaybackState
                 0 "!" 24000 1).1.nextPlayTime,
               duration := (([0] : List Int).length : ℚ) / 24000,
               samples := ([0] : List Int).map fun v => (v : ℚ) / 32768 } := by
  have hbad : decodePCM16 "!" = none := by decide
  have hgood : decodePCM16 "AAA=" = some [0] := by decide
  have h := C8_malformed_chunk_dropped initialPlaybackState 0 1 "!" "AAA="
    24000 24000 1 1 [0] hbad hgood
  exact ⟨hbad, hgood, h.1, h.2.2.2.1⟩

/-- Every reconnect the channel schedules uses the fixed configured delay. -/
theorem runClosures_delay_values (codes : List Nat) :
    ∀ st : ChannelState, ∀ d ∈ (runClosures st codes).2,
      d = reconnectInterval := by
  induction codes with
  | nil =>
      intro st d hd
      simp [runClosures] at hd
  | cons code rest ih =>
      intro st d hd
      by_cases hc : shouldReconnect code
      · by_cases hn : st.attemptCount < reconnectAttempts
        · simp [runClosures, onClose, hc, hn] at hd
          rcases hd with hd | hd
          · exact hd
          · exact ih _ d hd
        · simp [runClosures, onClose, hc, hn] at hd
          exact ih _ d hd
      · simp [runClosures, onClose, hc] at hd
        exact ih _ d hd

/-- The channel never schedules more reconnects than its remaining attempt
budget. -/
theorem runClosures_length_bound (codes : List Nat) :
    ∀ st : ChannelState,
      (runClosures st codes).2.length
        ≤ reconnectAttempts - st.attemptCount := by
  induction codes with
  | nil =>
      intro st
      simp [runClosures]
  | cons code rest ih =>
      intro st
      by_cases hc : shouldReconnect code
      · by_cases hn : st.attemptCount < reconnectAttempts
        · have h1 := ih { st with attemptCount := st.attemptCount + 1 }
          simp [runClosures, onClose, hc, hn] at h1 ⊢
          simp [reconnectAttempts] at h1 hn ⊢
          omega
        · have h1 := ih { st with terminalDisconnected := true }
          simp [runClosures, onClose, hc, hn] at h1 ⊢
          omega
      · have h1 := ih st
        simp [runClosures, onClose, hc] at h1 ⊢
        omega

/-- Once surfaced, the terminal disconnected state persists through any
further closures. -/
theorem runClosures_terminal_persists (codes : List Nat) :
    ∀ st : ChannelState, st.terminalDisconnected = true →
      (runClosures st codes).1.terminalDisconnected = true := by
  induction codes with
  | nil =>
      intro st h
      simpa [runClosures] using h
  | cons code rest ih =>
      intro st h
      by_cases hc : shouldReconnect code
      · by_cases hn : st.attemptCount < reconnectAttempts
        · simp [runClosures, onClose, hc, hn]
          exact ih _ (by simpa using h)
        · simp [runClosures, onClose, hc, hn]
          exact ih _ (by simp)
      · simp [runClosures, onClose, hc]
        exact ih _ h

/-- More abnormal closures than the remaining attempt budget surface the
terminal disconnected state. -/
theorem runClosures_exhaustion (codes : List Nat) :
    ∀ st : ChannelState, (1000 : Nat) ∉ codes →
      reconnectAttempts - st.attemptCount < codes.length →
      (runClosures st codes).1.terminalDisconnected = true := by
  induction codes with
  | nil =>
      intro st _ h
      simp at h
  | cons code rest ih =>
      intro st hmem hlen
      have hcode : code ≠ 1000 := fun e => hmem (by simp [e])
      have hsr : shouldReconnect code = true := by
        simp [shouldReconnect, hcode]
      have hmem2 : (1000 : Nat) ∉ rest := fun hm =>
        hmem (List.mem_cons_of_mem _ hm)
      by_cases hn : st.attemptCount < reconnectAttempts
      · simp [runClosures, onClose, hsr, hn]
        apply ih _ hmem2
        simp [reconnectAttempts] at hlen hn ⊢
        omega
      · simp [runClosures, onClose, hsr, hn]
        exact runClosures_terminal_persists rest _ (by simp)

/-- Claim C5: over any run of consecutive abnormal closures (codes other than
1000) with no successful open in between, the channel schedules at most the
configured 10 reconnect attempts, each after the fixed 2000 ms delay; more
than 10 such closures surface the terminal disconnected state; and a normal
closure (code 1000) never schedules a reconnect and changes nothing. -/
theorem C5_reconnect_bound (codes : List Nat)
    (habnormal : (1000 : Nat) ∉ codes) :
    (runClosures initialChannelState codes).2.length ≤ reconnectAttempts ∧
    (∀ d ∈ (runClosures initialChannelState codes).2,
      d = reconnectInterval) ∧
    (reconnectAttempts < codes.length →
      (runClosures initialChannelState codes).1.terminalDisconnected
        = true) ∧
    (∀ st : ChannelState, onClose 1000 st = (st, none)) := by
  refine ⟨?_, runClosures_delay_values codes initialChannelState, ?_, ?_⟩
  · simpa [initialChannelState] using
      runClosures_length_bound codes initialChannelState
  · intro h
    exact runClosures_exhaustion codes initialChannelState habnormal
      (by simpa [initialChannelState] using h)
  · intro st
    simp [onClose, shouldReconnect]

/-- Witness for C5: eleven consecutive abnormal closures (code 1006) schedule
at most ten reconnects and end in the terminal disconnected state. -/
theorem C5_reconnect_bound_witness :
    (1000 : Nat) ∉ List.replicate 11 1006 ∧
    (runClosures initialChannelState
        (List.replicate 11 1006)).2.length ≤ reconnectAttempts ∧
    (runClosures initialChannelState
        (List.replicate 11 1006)).1.terminalDisconnected = true := by
  have h := C5_reconnect_bound (List.replicate 11 1006) (by decide)
  exact ⟨by decide, h.1, h.2.2.1 (by decide)⟩
